import Mathlib

/-
Verification development for the drmemory symquery front end
(src/tools/symquery.c).  The external drsyms symbol-resolution library is
modelled as an oracle (structure SymLib) since the repository only invokes
it; the front end itself (argument parsing, dispatch, batch protocol,
output formatting) is translated faithfully from the C source, on the
non-Windows build (the #ifdef WINDOWS branches are documented where they
differ).  Side effects are modelled as an explicit trace of events
(reads from stdin, printf writes, fflush, and calls into the library).
-/

namespace Symquery

/-- Status codes of the external drsyms library (drsyms.h is not part of
this repository; only the two statuses the front end distinguishes are
named, every other status is carried with its raw numeric value). -/
inductive drsym_error_t where
  | DRSYM_SUCCESS
  | DRSYM_ERROR_LINE_NOT_AVAILABLE
  | DRSYM_OTHER (code : Nat)
deriving Repr, DecidableEq

/-- Numeric value of a status, as printed by printf %d.  The values 0 and 6
for the two named statuses come from the library's enum (not in this
repository); the front end only ever prints the code of a status that is
neither of those two, so those two values never reach any output. -/
def drsym_error_t.toCode : drsym_error_t → Nat
  | .DRSYM_SUCCESS => 0
  | .DRSYM_ERROR_LINE_NOT_AVAILABLE => 6
  | .DRSYM_OTHER c => c

/-- MAX_FUNC_LEN from symquery.c: the caller-provided name buffer size. -/
def MAX_FUNC_LEN : Nat := 256

/-- drsym_info_t as used by symquery.c: the fields the front end reads.
Offsets are size_t in C and modelled as Nat; casts to 32-bit uint at the
printf sites are modelled with explicit mod 2^32. -/
structure drsym_info_t where
  name : String
  start_offs : Nat
  end_offs : Nat
  file : String
  line : Nat
  line_offs : Nat
  elf_symtab : Bool
  pecoff_symtab : Bool
  pdb : Bool
  symbols : Bool
  line_nums : Bool
  name_available_size : Nat
deriving Repr, DecidableEq

/-- Debug-kind flag set returned by drsym_get_module_debug_kind; the TEST
macro's bit tests are modelled as the individual boolean flags. -/
structure drsym_debug_kind_t where
  elf_symtab : Bool
  pecoff_symtab : Bool
  pdb : Bool
  symbols : Bool
  line_nums : Bool
deriving Repr, DecidableEq

/-- drsym_line_info_t fields read by enum_line_cb. -/
structure drsym_line_info_t where
  cu_name : Option String
  file : Option String
  line : Nat
  line_addr : Nat
deriving Repr, DecidableEq

/-- Observable actions of the front end: stdin reads, printf writes,
fflush, and the calls into dr/drsyms. -/
inductive Event where
  | readLine (line : String)
  | write (s : String)
  | flush
  | standalone_start
  | drsym_start
  | call_lookup_address (dllpath : String) (modoffs : Nat)
  | call_lookup_symbol (dllpath : String) (sym : String)
  | call_enum_symbols (dllpath : String) (matchName : Option String)
  | call_enum_lines (dllpath : String)
  | call_debug_kind (dllpath : String)
  | drsym_teardown
deriving Repr, DecidableEq

/-- The printf payloads of a trace, in order. -/
def writesOf (es : List Event) : List String :=
  es.filterMap (fun e =>
    match e with
    | Event.write s => some s
    | _ => none)

/-- Whether an event is a drsym_lookup_address call. -/
def isAddrCall : Event → Bool
  | Event.call_lookup_address _ _ => true
  | _ => false

/-- Number of drsym_lookup_address calls in a trace. -/
def countAddrCalls (es : List Event) : Nat :=
  es.countP isAddrCall

/-- Oracle for the external drsyms library: results of each entry point the
front end calls.  module_syms lists the (info, per-symbol status) pairs an
enumeration would hand to the callback in order, were the callback to keep
returning true. -/
structure SymLib where
  start_res : drsym_error_t
  teardown_res : drsym_error_t
  lookup_address : String → Nat → drsym_error_t × drsym_info_t
  lookup_symbol : String → String → drsym_error_t × Nat
  get_module_debug_kind : String → drsym_error_t × drsym_debug_kind_t
  module_syms : String → List (drsym_info_t × drsym_error_t)
  enum_syms_status : String → drsym_error_t
  module_lines : String → List drsym_line_info_t
  enum_lines_status : String → drsym_error_t

/-- The two process-wide option flags of symquery.c. -/
structure Globals where
  show_func : Bool
  verbose : Bool
deriving Repr, DecidableEq

/-- ASCII tolower as used by strcasecmp. -/
def lowerChar (c : Char) : Char :=
  if 'A' ≤ c ∧ c ≤ 'Z' then Char.ofNat (c.toNat + 32) else c

/-- Case-insensitive string equality: _stricmp(a,b) == 0 (strcasecmp on
non-Windows). -/
def stricmp (a b : String) : Bool :=
  decide (a.data.map lowerChar = b.data.map lowerChar)

/-- Lowercase hex rendering of printf %x (no leading zeros, 0 prints 0). -/
def hexStr (n : Nat) : String := String.mk (Nat.toDigits 16 n)

/-- (uint)(a - b) where a and b are size_t: two's-complement wraparound
reduced to 32 bits. -/
def usub32 (a b : Nat) : Nat :=
  (((a : Int) - (b : Int)) % ((2 : Int) ^ 32)).toNat

/-- isspace characters skipped by scanf %x. -/
def isWS (c : Char) : Bool :=
  c = ' ' || c = '\t' || c = '\n' || c = '\r' || c = '\x0b' || c = '\x0c'

/-- Value of a hex digit, none for a non-digit. -/
def hexDigitVal (c : Char) : Option Nat :=
  if '0' ≤ c ∧ c ≤ '9' then some (c.toNat - '0'.toNat)
  else if 'a' ≤ c ∧ c ≤ 'f' then some (c.toNat - 'a'.toNat + 10)
  else if 'A' ≤ c ∧ c ≤ 'F' then some (c.toNat - 'A'.toNat + 10)
  else none

/-- Consume a maximal run of hex digits, accumulating the value. -/
def takeHexDigits : List Char → Nat → Nat × List Char
  | [], acc => (acc, [])
  | c :: cs, acc =>
    match hexDigitVal c with
    | some v => takeHexDigits cs (acc * 16 + v)
    | none => (acc, c :: cs)

/-- scanf %x conversion: skip whitespace, accept an optional 0x/0X prefix
when a hex digit follows it, then require at least one hex digit; returns
the value and the unconsumed rest, or none on a matching failure. -/
def scan_hex (cs0 : List Char) : Option (Nat × List Char) :=
  let cs := cs0.dropWhile isWS
  let body :=
    match cs with
    | '0' :: x :: rest =>
      if (x = 'x' ∨ x = 'X') ∧ (hexDigitVal (rest.headD ' ')).isSome then rest else cs
    | _ => cs
  match body with
  | c :: _ => if (hexDigitVal c).isSome then some (takeHexDigits body 0) else none
  | [] => none

/-- sscanf(argv[i], "%x", (uint*)&modoffs) == 1 for a positional -a query:
the parsed value as stored through the uint pointer. -/
def parse_hex_arg (s : String) : Option Nat :=
  match scan_hex s.data with
  | some (v, _) => some (v % 2 ^ 32)
  | none => none

/-- sscanf(line, "%MAX_PATH[^;];%x", modpath, (uint*)&modoffs) == 2 for a
batch-mode line: a nonempty semicolon-free module path, the literal
semicolon, then a hex address.  The MAXIMUM_PATH width cap comes from a
header that is not part of this repository and is not modelled; fgets
already bounds the line length. -/
def parse_batch_line (line : String) : Option (String × Nat) :=
  let cs := line.data
  let path := cs.takeWhile (fun c => c ≠ ';')
  let rest := cs.dropWhile (fun c => c ≠ ';')
  if path.isEmpty then none
  else
    match rest with
    | ';' :: rest2 =>
      match scan_hex rest2 with
      | some (v, _) => some (String.mk path, v % 2 ^ 32)
      | none => none
    | _ => none

/-- print_debug_kind: the verbose debug-info banner. -/
def print_debug_kind (kind : drsym_debug_kind_t) : List Event :=
  [Event.write ("<debug info: type=" ++
    (if kind.elf_symtab then "ELF symtab"
     else if kind.pecoff_symtab then "PECOFF symtab"
     else if kind.pdb then "PDB" else "no symbols") ++ ", " ++
    (if kind.symbols then "has" else "NO") ++ " symbols, " ++
    (if kind.line_nums then "has" else "NO") ++ " line numbers>\n")]

/-- get_and_print_debug_kind: query the module debug kind and print the
banner on success, nothing otherwise. -/
def get_and_print_debug_kind (lib : SymLib) (dllpath : String) : List Event :=
  Event.call_debug_kind dllpath ::
  (if (lib.get_module_debug_kind dllpath).1 = drsym_error_t.DRSYM_SUCCESS then
    print_debug_kind (lib.get_module_debug_kind dllpath).2
  else [])

/-- Debug-kind flags of a drsym_info_t, as read by print_debug_kind from
sym.debug_kind. -/
def drsym_info_t.debug_kind (s : drsym_info_t) : drsym_debug_kind_t :=
  ⟨s.elf_symtab, s.pecoff_symtab, s.pdb, s.symbols, s.line_nums⟩

/-- lookup_address: resolve an offset in a module and print the result.
DRSYM_SUCCESS and DRSYM_ERROR_LINE_NOT_AVAILABLE both count as found;
the latter prints ??:0 in place of file:line+0x<line_offs>.  With -f the
symbol name and offset from its start are printed before the location.
Any other status prints the raw code when verbose, a lone ? when -f is
set, and nothing otherwise. -/
def lookup_address (lib : SymLib) (g : Globals) (dllpath : String) (modoffs : Nat) :
    List Event :=
  Event.call_lookup_address dllpath modoffs ::
  (let r := lib.lookup_address dllpath modoffs
   if r.1 = drsym_error_t.DRSYM_SUCCESS ∨
      r.1 = drsym_error_t.DRSYM_ERROR_LINE_NOT_AVAILABLE then
    (if g.verbose then print_debug_kind r.2.debug_kind else []) ++
    (if MAX_FUNC_LEN ≤ r.2.name_available_size then
      [Event.write ("WARNING: function name longer than max: " ++ r.2.name ++ "\n")]
    else []) ++
    (if g.show_func then
      [Event.write (r.2.name ++ "+0x" ++ hexStr (usub32 modoffs r.2.start_offs) ++ "\n")]
    else []) ++
    (if r.1 = drsym_error_t.DRSYM_ERROR_LINE_NOT_AVAILABLE then
      [Event.write "??:0\n"]
    else
      [Event.write (r.2.file ++ ":" ++ toString r.2.line ++ "+0x" ++
        hexStr (r.2.line_offs % 2 ^ 32) ++ "\n")])
  else if g.verbose then
    [Event.write ("drsym_lookup_address error " ++ toString r.1.toCode ++ "\n")]
  else if g.show_func then
    [Event.write "?\n"]
  else [])

/-- lookup_symbol: resolve an exact symbol name to its module offset and
print +0x<offset>, or ?? on failure (the raw status when verbose). -/
def lookup_symbol (lib : SymLib) (g : Globals) (dllpath symname : String) :
    List Event :=
  (if g.verbose then get_and_print_debug_kind lib dllpath else []) ++
  Event.call_lookup_symbol dllpath symname ::
  (let r := lib.lookup_symbol dllpath symname
   if r.1 = drsym_error_t.DRSYM_SUCCESS ∨
      r.1 = drsym_error_t.DRSYM_ERROR_LINE_NOT_AVAILABLE then
    [Event.write ("+0x" ++ hexStr (r.2 % 2 ^ 32) ++ "\n")]
  else if g.verbose then
    [Event.write ("drsym error " ++ toString r.1.toCode ++ " looking up \"" ++
      symname ++ "\" in \"" ++ dllpath ++ "\"\n")]
  else
    [Event.write "??\n"])

/-- search_cb: the enumeration callback.  Prints the symbol when there is
no filter or the name matches the filter exactly, ignores the per-symbol
status, and always returns true to keep iterating. -/
def search_cb (data : Option String) (info : drsym_info_t) (status : drsym_error_t) :
    List Event × Bool :=
  ((if data = none ∨ some info.name = data then
     [Event.write (info.name ++ " +0x" ++ hexStr (info.start_offs % 2 ^ 32) ++
       "-0x" ++ hexStr (info.end_offs % 2 ^ 32) ++ "\n")]
   else []), true)

/-- Driving loop of drsym_enumerate_symbols_ex: hand each symbol to the
callback, stopping as soon as the callback returns false. -/
def run_enum (cb : drsym_info_t → drsym_error_t → List Event × Bool) :
    List (drsym_info_t × drsym_error_t) → List Event
  | [] => []
  | s :: rest =>
    if (cb s.1 s.2).2 then (cb s.1 s.2).1 ++ run_enum cb rest else (cb s.1 s.2).1

/-- enumerate_symbols on the non-Windows build: both the search and the
plain paths call drsym_enumerate_symbols_ex with search_cb and the match
string as callback data (the Windows-only drsym_search_symbols_ex branch
is compiled out). -/
def enumerate_symbols (lib : SymLib) (g : Globals) (dllpath : String)
    (matchName : Option String) (search searchall : Bool) : List Event :=
  (if g.verbose then get_and_print_debug_kind lib dllpath else []) ++
  Event.call_enum_symbols dllpath matchName ::
  (run_enum (search_cb matchName) (lib.module_syms dllpath) ++
   (if lib.enum_syms_status dllpath ≠ drsym_error_t.DRSYM_SUCCESS ∧ g.verbose then
     [Event.write ("search/enum error " ++
       toString (lib.enum_syms_status dllpath).toCode ++ "\n")]
   else []))

/-- enum_line_cb: print one source-line record; always continue.  The
address format PIFX comes from a header that is not part of this
repository; modelled from the spec: the address is printed in hexadecimal. -/
def enum_line_cb (info : drsym_line_info_t) : List Event × Bool :=
  ([Event.write ("cu=\"" ++ info.cu_name.getD "<null>" ++ "\", file=\"" ++
    info.file.getD "<null>" ++ "\" line=" ++ toString info.line ++
    ", addr=0x" ++ hexStr info.line_addr ++ "\n")], true)

/-- Driving loop of drsym_enumerate_lines. -/
def run_line_enum (cb : drsym_line_info_t → List Event × Bool) :
    List drsym_line_info_t → List Event
  | [] => []
  | s :: rest => if (cb s).2 then (cb s).1 ++ run_line_enum cb rest else (cb s).1

/-- enumerate_lines: print every known source-line-to-address mapping. -/
def enumerate_lines (lib : SymLib) (g : Globals) (dllpath : String) : List Event :=
  (if g.verbose then get_and_print_debug_kind lib dllpath else []) ++
  Event.call_enum_lines dllpath ::
  (run_line_enum enum_line_cb (lib.module_lines dllpath) ++
   (if lib.enum_lines_status dllpath ≠ drsym_error_t.DRSYM_SUCCESS ∧ g.verbose then
     [Event.write ("line enum error " ++
       toString (lib.enum_lines_status dllpath).toCode ++ "\n")]
   else []))

/-- The batch-mode stdin loop of main: stop at end of input or at the
sentinel line ;exit followed by newline (which is still read); look up
each line parsing as path;hexaddr and flush after printing; otherwise
print an error only when verbose.  printf("Error: unknown input %s\n")
appends a newline after the line, which itself ends in one. -/
def batch_loop (lib : SymLib) (g : Globals) : List String → List Event
  | [] => []
  | l :: rest =>
    if l = ";exit\n" then [Event.readLine l]
    else
      Event.readLine l ::
      ((match parse_batch_line l with
        | some mo => lookup_address lib g mo.1 mo.2 ++ [Event.flush]
        | none =>
          if g.verbose then [Event.write ("Error: unknown input " ++ l ++ "\n")]
          else []) ++
       batch_loop lib g rest)

/-- The option flags of main, plus the two globals, as set by the
argument-parsing loop. -/
structure ParseState where
  dll : Option String
  show_func : Bool
  verbose : Bool
  addr2sym : Bool
  addr2sym_multi : Bool
  sym2addr : Bool
  enumerate : Bool
  enumerate_all : Bool
  search : Bool
  searchall : Bool
  enum_lines : Bool
deriving Repr, DecidableEq

/-- All-false start state: zero-initialised globals and false locals. -/
def initState : ParseState :=
  ⟨none, false, false, false, false, false, false, false, false, false, false⟩

/-- Outcome of the argument-parsing loop: usage error (usage printed,
exit 1), invalid -e path (error printed, exit 1), or the final flag state
together with the positional arguments left after an -a or -s flag. -/
inductive ParseResult where
  | usage
  | badPath (p : String)
  | ok (st : ParseState) (queries : List String)
deriving Repr, DecidableEq

/-- The argument-parsing loop of main (non-Windows: -e checks
dr_file_exists, modelled by the file_ok oracle; flag comparison is
case-insensitive _stricmp).  An -a or -s flag with at least one following
argument stops the loop; every remaining argument becomes a positional
query. -/
def parse_args (file_ok : String → Bool) : ParseState → List String → ParseResult
  | st, [] => .ok st []
  | st, a :: rest =>
    if stricmp a "-e" then
      match rest with
      | [] => .usage
      | p :: rest2 =>
        if file_ok p then parse_args file_ok { st with dll := some p } rest2
        else .badPath p
    else if stricmp a "-f" then parse_args file_ok { st with show_func := true } rest
    else if stricmp a "-v" then parse_args file_ok { st with verbose := true } rest
    else if stricmp a "-a" || stricmp a "-s" then
      match rest with
      | [] => .usage
      | r :: rest2 =>
        .ok (if stricmp a "-a" then { st with addr2sym := true }
             else { st with sym2addr := true }) (r :: rest2)
    else if stricmp a "--lines" then
      parse_args file_ok { st with enum_lines := true } rest
    else if stricmp a "-q" then
      parse_args file_ok { st with addr2sym_multi := true } rest
    else if stricmp a "--enum" then
      parse_args file_ok { st with enumerate := true } rest
    else if stricmp a "--list" then
      parse_args file_ok { st with enumerate_all := true } rest
    else if stricmp a "--search" then
      parse_args file_ok { st with search := true } rest
    else if stricmp a "--searchall" then
      parse_args file_ok { st with search := true, searchall := true } rest
    else .usage

/-- The post-loop validation condition of main (lines 170-172): batch mode
forbids a module path, every other mode requires one, and at least one
mode flag must be present. -/
def args_invalid (st : ParseState) : Bool :=
  (!st.addr2sym_multi && decide (st.dll = none)) ||
  (st.addr2sym_multi && !decide (st.dll = none)) ||
  (!st.sym2addr && !st.addr2sym && !st.addr2sym_multi &&
   !st.enumerate_all && !st.enum_lines)

/-- USAGE_PRE with argv[0] substituted. -/
def USAGE_PRE (p : String) : String :=
  "Usage:\nLook up addresses for one module:\n  " ++ p ++
  " -e <module> [-f] [-v] -a [<address relative to module base> ...]\n" ++
  "Look up addresses for multiple modules:\n  " ++ p ++
  " [-f] [-v] -q <pairs of [module_path;address relative to module base] on stdin>\n" ++
  "Look up exact symbols for one module:\n  " ++ p ++
  " -e <module> [-v] [--enum] -s [<symbol1> <symbol2> ...]\n"

/-- USAGE_POST with argv[0] substituted. -/
def USAGE_POST (p : String) : String :=
  "List all symbols in a module:\n  " ++ p ++ " -e <module> [-v] --list\n" ++
  "List all source lines in a module:\n  " ++ p ++ " -e <module> [-v] --lines\n" ++
  "Optional parameters:\n  -f = show function name\n  -v = verbose\n" ++
  "  --enum = look up via external enum rather than drsyms-internal enum\n"

/-- PRINT_USAGE: three printf calls; USAGE_MID prints nothing on the
non-Windows build (%.0s%.0s). -/
def print_usage_events (p : String) : List Event :=
  [Event.write (USAGE_PRE p), Event.write "", Event.write (USAGE_POST p)]

/-- The single-module/batch dispatch of main after library start-up.  The
none case of dll is unreachable: args_invalid rules it out whenever
addr2sym_multi is false. -/
def run_mode (lib : SymLib) (g : Globals) (st : ParseState)
    (queries : List String) (stdin_lines : List String) : List Event :=
  if st.addr2sym_multi then batch_loop lib g stdin_lines
  else
    match st.dll with
    | none => []
    | some dll =>
      if st.enum_lines then enumerate_lines lib g dll
      else if st.enumerate_all then
        enumerate_symbols lib g dll none st.search st.searchall
      else
        queries.flatMap (fun q =>
          if st.addr2sym then
            match parse_hex_arg q with
            | some o => lookup_address lib g dll o
            | none => [Event.write ("ERROR: unknown input " ++ q ++ "\n")]
          else if st.enumerate || st.search then
            enumerate_symbols lib g dll (some q) st.search st.searchall
          else lookup_symbol lib g dll q)

/-- Body of main after the argument loop: validation, library start-up,
dispatch, and library teardown (a teardown failure only warns). -/
def after_parse (lib : SymLib) (argv0 : String) (stdin_lines : List String) :
    ParseResult → Nat × List Event
  | .usage => (1, print_usage_events argv0)
  | .badPath p => (1, [Event.write ("ERROR: invalid path " ++ p ++ "\n")])
  | .ok st queries =>
    if args_invalid st then (1, print_usage_events argv0)
    else if lib.start_res ≠ drsym_error_t.DRSYM_SUCCESS then
      (1, [Event.standalone_start, Event.drsym_start,
           Event.write "ERROR: unable to initialize symbol library\n"])
    else
      (0, [Event.standalone_start, Event.drsym_start] ++
          run_mode lib { show_func := st.show_func, verbose := st.verbose }
            st queries stdin_lines ++
          [Event.drsym_teardown] ++
          (if lib.teardown_res ≠ drsym_error_t.DRSYM_SUCCESS then
            [Event.write "WARNING: error cleaning up symbol library\n"]
          else []))

/-- main: exit status and event trace of a whole run, for a given library
oracle, file-existence oracle, argv[0], remaining argv, and stdin lines. -/
def main_run (lib : SymLib) (file_ok : String → Bool) (argv0 : String)
    (argv : List String) (stdin_lines : List String) : Nat × List Event :=
  after_parse lib argv0 stdin_lines (parse_args file_ok initState argv)

theorem writesOf_nil : writesOf [] = [] := rfl

theorem writesOf_append (a b : List Event) :
    writesOf (a ++ b) = writesOf a ++ writesOf b :=
  List.filterMap_append ..

theorem writesOf_ite (P : Prop) [Decidable P] (a b : List Event) :
    writesOf (if P then a else b) = if P then writesOf a else writesOf b :=
  apply_ite writesOf P a b

theorem writesOf_cons_write (s : String) (es : List Event) :
    writesOf (Event.write s :: es) = s :: writesOf es := rfl

theorem writesOf_cons_readLine (l : String) (es : List Event) :
    writesOf (Event.readLine l :: es) = writesOf es := rfl

theorem writesOf_cons_flush (es : List Event) :
    writesOf (Event.flush :: es) = writesOf es := rfl

theorem writesOf_cons_call_addr (d : String) (o : Nat) (es : List Event) :
    writesOf (Event.call_lookup_address d o :: es) = writesOf es := rfl

theorem writesOf_cons_call_sym (d s : String) (es : List Event) :
    writesOf (Event.call_lookup_symbol d s :: es) = writesOf es := rfl

theorem writesOf_cons_call_enum (d : String) (m : Option String) (es : List Event) :
    writesOf (Event.call_enum_symbols d m :: es) = writesOf es := rfl

theorem writesOf_cons_call_lines (d : String) (es : List Event) :
    writesOf (Event.call_enum_lines d :: es) = writesOf es := rfl

theorem writesOf_cons_call_kind (d : String) (es : List Event) :
    writesOf (Event.call_debug_kind d :: es) = writesOf es := rfl

/-- stricmp is transitive over disequality of the compared literal: if a
compares equal to s but s does not compare equal to t, then a does not
compare equal to t. -/
theorem stricmp_trans_ne {a s t : String} (h : stricmp a s = true)
    (hst : stricmp s t = false) : stricmp a t = false := by
  have h1 : a.data.map lowerChar = s.data.map lowerChar := of_decide_eq_true h
  have h2 : s.data.map lowerChar ≠ t.data.map lowerChar := of_decide_eq_false hst
  exact decide_eq_false (h1 ▸ h2)

/-- A fixed symbol record used to exercise the handlers on concrete
inputs. -/
def testSym : drsym_info_t :=
  ⟨"foo", 16, 32, "a.c", 12, 2, true, false, false, true, true, 3⟩

/-- A concrete library oracle: offset 22 resolves fully, offset 23 lacks
line information, anything else fails with code 5; symbol foo lives at
offset 16 (0x10); the module enumerates exactly testSym. -/
def testLib : SymLib where
  start_res := drsym_error_t.DRSYM_SUCCESS
  teardown_res := drsym_error_t.DRSYM_SUCCESS
  lookup_address := fun _ o =>
    if o = 22 then (drsym_error_t.DRSYM_SUCCESS, testSym)
    else if o = 23 then (drsym_error_t.DRSYM_ERROR_LINE_NOT_AVAILABLE, testSym)
    else (drsym_error_t.DRSYM_OTHER 5, testSym)
  lookup_symbol := fun _ s =>
    if s = "foo" then (drsym_error_t.DRSYM_SUCCESS, 16)
    else (drsym_error_t.DRSYM_OTHER 5, 0)
  get_module_debug_kind := fun _ =>
    (drsym_error_t.DRSYM_SUCCESS, ⟨true, false, false, true, true⟩)
  module_syms := fun _ => [(testSym, drsym_error_t.DRSYM_SUCCESS)]
  enum_syms_status := fun _ => drsym_error_t.DRSYM_SUCCESS
  module_lines := fun _ => []
  enum_lines_status := fun _ => drsym_error_t.DRSYM_SUCCESS

/-- C1: for every module path and offset handed to lookup_address (the
single handler used by both the single-module and the batch path), a full
success prints file:line+0x<line-offset>, the line-not-available status
prints ??:0 instead, and in both of those cases a -f run prints
name+0x<offset-from-symbol-start> immediately before the location line
(after the verbose debug banner and possible overlong-name warning);
every other status prints the raw numeric code when verbose, a lone ?
when not verbose but -f is set, and nothing otherwise. -/
theorem lookup_address_output_spec (lib : SymLib) (g : Globals)
    (dllpath : String) (modoffs : Nat) (st : drsym_error_t) (sym : drsym_info_t)
    (hres : lib.lookup_address dllpath modoffs = (st, sym)) :
    (st = drsym_error_t.DRSYM_SUCCESS →
      writesOf (lookup_address lib g dllpath modoffs) =
        (if g.verbose then writesOf (print_debug_kind sym.debug_kind) else []) ++
        (if MAX_FUNC_LEN ≤ sym.name_available_size then
          ["WARNING: function name longer than max: " ++ sym.name ++ "\n"] else []) ++
        (if g.show_func then
          [sym.name ++ "+0x" ++ hexStr (usub32 modoffs sym.start_offs) ++ "\n"]
        else []) ++
        [sym.file ++ ":" ++ toString sym.line ++ "+0x" ++
          hexStr (sym.line_offs % 2 ^ 32) ++ "\n"]) ∧
    (st = drsym_error_t.DRSYM_ERROR_LINE_NOT_AVAILABLE →
      writesOf (lookup_address lib g dllpath modoffs) =
        (if g.verbose then writesOf (print_debug_kind sym.debug_kind) else []) ++
        (if MAX_FUNC_LEN ≤ sym.name_available_size then
          ["WARNING: function name longer than max: " ++ sym.name ++ "\n"] else []) ++
        (if g.show_func then
          [sym.name ++ "+0x" ++ hexStr (usub32 modoffs sym.start_offs) ++ "\n"]
        else []) ++
        ["??:0\n"]) ∧
    (st ≠ drsym_error_t.DRSYM_SUCCESS →
      st ≠ drsym_error_t.DRSYM_ERROR_LINE_NOT_AVAILABLE →
      writesOf (lookup_address lib g dllpath modoffs) =
        (if g.verbose then ["drsym_lookup_address error " ++ toString st.toCode ++ "\n"]
         else if g.show_func then ["?\n"] else [])) := by
  refine ⟨?_, ?_, ?_⟩
  · intro h
    subst h
    simp [lookup_address, hres, writesOf_append, writesOf_ite, writesOf_cons_write,
      writesOf_cons_call_addr, writesOf_nil]
  · intro h
    subst h
    simp [lookup_address, hres, writesOf_append, writesOf_ite, writesOf_cons_write,
      writesOf_cons_call_addr, writesOf_nil]
  · intro h1 h2
    simp [lookup_address, hres, h1, h2, writesOf_append, writesOf_ite,
      writesOf_cons_write, writesOf_cons_call_addr, writesOf_nil]

/-- Witness for C1: a concrete full-success lookup with -f set prints the
symbol line and then the location line. -/
theorem lookup_address_output_spec_witness :
    testLib.lookup_address "a.dll" 22 = (drsym_error_t.DRSYM_SUCCESS, testSym) ∧
    writesOf (lookup_address testLib { show_func := true, verbose := false } "a.dll" 22) =
      ["foo+0x6\n", "a.c:12+0x2\n"] := by
  refine ⟨by decide, ?_⟩
  have h := (lookup_address_output_spec testLib { show_func := true, verbose := false }
    "a.dll" 22 drsym_error_t.DRSYM_SUCCESS testSym (by decide)).1 rfl
  exact h.trans (by decide)

/-- C2: for every module path and symbol name, lookup_symbol prints
+0x<offset> in hexadecimal when the library resolves the name to an
offset (full success, or success without line information), and on any
other status prints ?? (or, when verbose, a line carrying the raw numeric
status code instead); a verbose run is preceded by the debug-kind
banner. -/
theorem lookup_symbol_output_spec (lib : SymLib) (g : Globals)
    (dllpath symname : String) (st : drsym_error_t) (offs : Nat)
    (hres : lib.lookup_symbol dllpath symname = (st, offs)) :
    ((st = drsym_error_t.DRSYM_SUCCESS ∨
      st = drsym_error_t.DRSYM_ERROR_LINE_NOT_AVAILABLE) →
      writesOf (lookup_symbol lib g dllpath symname) =
        (if g.verbose then writesOf (get_and_print_debug_kind lib dllpath) else []) ++
        ["+0x" ++ hexStr (offs % 2 ^ 32) ++ "\n"]) ∧
    (st ≠ drsym_error_t.DRSYM_SUCCESS →
      st ≠ drsym_error_t.DRSYM_ERROR_LINE_NOT_AVAILABLE →
      writesOf (lookup_symbol lib g dllpath symname) =
        (if g.verbose then writesOf (get_and_print_debug_kind lib dllpath) else []) ++
        [if g.verbose then
          "drsym error " ++ toString st.toCode ++ " looking up \"" ++ symname ++
            "\" in \"" ++ dllpath ++ "\"\n"
         else "??\n"]) := by
  constructor
  · intro h
    rcases h with h | h <;> subst h <;>
      simp [lookup_symbol, hres, writesOf_append, writesOf_ite, writesOf_cons_write,
        writesOf_cons_call_sym, writesOf_nil]
  · intro h1 h2
    by_cases hv : g.verbose = true <;>
      simp [lookup_symbol, hres, h1, h2, hv, writesOf_append, writesOf_ite,
        writesOf_cons_write, writesOf_cons_call_sym, writesOf_nil]

/-- Witness for C2: the spec's own example, a symbol at offset 0x10 prints
+0x10; and a nonexistent symbol prints ??. -/
theorem lookup_symbol_output_spec_witness :
    writesOf (lookup_symbol testLib { show_func := false, verbose := false }
      "a.dll" "foo") = ["+0x10\n"] ∧
    writesOf (lookup_symbol testLib { show_func := false, verbose := false }
      "a.dll" "bar") = ["??\n"] := by
  constructor
  · have h := (lookup_symbol_output_spec testLib { show_func := false, verbose := false }
      "a.dll" "foo" drsym_error_t.DRSYM_SUCCESS 16 (by decide)).1 (Or.inl rfl)
    exact h.trans (by decide)
  · have h := (lookup_symbol_output_spec testLib { show_func := false, verbose := false }
      "a.dll" "bar" (drsym_error_t.DRSYM_OTHER 5) 0 (by decide)).2
      (by decide) (by decide)
    exact h.trans (by decide)

theorem countAddrCalls_cons_write (s : String) (es : List Event) :
    countAddrCalls (Event.write s :: es) = countAddrCalls es := by
  simp [countAddrCalls, List.countP_cons, isAddrCall]

theorem countAddrCalls_append (a b : List Event) :
    countAddrCalls (a ++ b) = countAddrCalls a + countAddrCalls b :=
  List.countP_append ..

/-- Every run of lookup_address performs exactly one library
address-lookup call. -/
theorem countAddrCalls_lookup_address (lib : SymLib) (g : Globals)
    (dllpath : String) (modoffs : Nat) :
    countAddrCalls (lookup_address lib g dllpath modoffs) = 1 := by
  simp only [lookup_address]
  split_ifs <;>
    simp [countAddrCalls, print_debug_kind, List.countP_cons, List.countP_append,
      List.countP_nil, isAddrCall]

/-- C3: the batch reader stops at end of input and at the sentinel line
;exit followed by newline (everything after the sentinel is never read);
a non-sentinel line that parses as <path-without-semicolon>;<hexaddr>
triggers exactly one address lookup; a non-sentinel line that does not
parse produces no output unless verbose mode is set, in which case one
error line is printed, and performs no lookup. -/
theorem batch_loop_line_behavior (lib : SymLib) (g : Globals) :
    batch_loop lib g [] = [] ∧
    (∀ rest, batch_loop lib g (";exit\n" :: rest) = [Event.readLine ";exit\n"]) ∧
    (∀ l rest m o, l ≠ ";exit\n" → parse_batch_line l = some (m, o) →
      batch_loop lib g (l :: rest) =
        Event.readLine l ::
          (lookup_address lib g m o ++ [Event.flush] ++ batch_loop lib g rest) ∧
      countAddrCalls (lookup_address lib g m o) = 1) ∧
    (∀ l rest, l ≠ ";exit\n" → parse_batch_line l = none →
      batch_loop lib g (l :: rest) =
        Event.readLine l ::
          ((if g.verbose then [Event.write ("Error: unknown input " ++ l ++ "\n")]
            else []) ++ batch_loop lib g rest) ∧
      countAddrCalls (batch_loop lib g (l :: rest)) =
        countAddrCalls (batch_loop lib g rest)) := by
  refine ⟨rfl, fun rest => by simp [batch_loop], ?_, ?_⟩
  · intro l rest m o hs hp
    refine ⟨?_, countAddrCalls_lookup_address lib g m o⟩
    simp [batch_loop, hs, hp]
  · intro l rest hs hp
    have he : batch_loop lib g (l :: rest) =
        Event.readLine l ::
          ((if g.verbose then [Event.write ("Error: unknown input " ++ l ++ "\n")]
            else []) ++ batch_loop lib g rest) := by
      simp [batch_loop, hs, hp]
    refine ⟨he, ?_⟩
    rw [he]
    by_cases hv : g.verbose = true <;>
      simp [hv, countAddrCalls, List.countP_cons, List.countP_append, isAddrCall]

/-- Witness for C3: a concrete parsing batch line performs its single
lookup, flushes, and recurses on the remaining input. -/
theorem batch_loop_line_behavior_witness :
    batch_loop testLib { show_func := false, verbose := false } ["a.dll;5\n"] =
      Event.readLine "a.dll;5\n" ::
        (lookup_address testLib { show_func := false, verbose := false } "a.dll" 5 ++
          [Event.flush] ++
          batch_loop testLib { show_func := false, verbose := false } []) ∧
    countAddrCalls (lookup_address testLib { show_func := false, verbose := false }
      "a.dll" 5) = 1 :=
  (batch_loop_line_behavior testLib { show_func := false, verbose := false }).2.2.1
    "a.dll;5\n" [] "a.dll" 5 (by decide) (by decide)

/-- C4: batch-mode requests are processed strictly in the order their
lines arrive: the trace of a parsing line is its read, then that line's
lookup events and output, then a flush, and only then the processing of
the remaining lines; and the trace of any nonempty remaining input begins
with the read of its first line, so each flush precedes the next read. -/
theorem batch_order_and_flush (lib : SymLib) (g : Globals) (l : String)
    (rest : List String) (m : String) (o : Nat)
    (hs : l ≠ ";exit\n") (hp : parse_batch_line l = some (m, o)) :
    batch_loop lib g (l :: rest) =
      Event.readLine l ::
        (lookup_address lib g m o ++ [Event.flush] ++ batch_loop lib g rest) ∧
    (∀ l2 rest2, (batch_loop lib g (l2 :: rest2)).head? =
      some (Event.readLine l2)) := by
  constructor
  · simp [batch_loop, hs, hp]
  · intro l2 rest2
    by_cases h2 : l2 = ";exit\n" <;> simp [batch_loop, h2]

/-- Witness for C4: the spec's example pair of lines, processed in input
order with a flush between the first response and the second read. -/
theorem batch_order_and_flush_witness :
    batch_loop testLib { show_func := false, verbose := false }
      ["a.dll;5\n", "b.dll;10\n", ";exit\n"] =
      Event.readLine "a.dll;5\n" ::
        (lookup_address testLib { show_func := false, verbose := false } "a.dll" 5 ++
          [Event.flush] ++
          batch_loop testLib { show_func := false, verbose := false }
            ["b.dll;10\n", ";exit\n"]) ∧
    (∀ l2 rest2,
      (batch_loop testLib { show_func := false, verbose := false }
        (l2 :: rest2)).head? = some (Event.readLine l2)) :=
  batch_order_and_flush testLib { show_func := false, verbose := false }
    "a.dll;5\n" ["b.dll;10\n", ";exit\n"] "a.dll" 5 (by decide) (by decide)

/-- An exact-name enumeration over symbols none of which match the filter
hands nothing to print: the callback produces no output for any of them. -/
theorem run_enum_no_match (q : String) :
    ∀ l : List (drsym_info_t × drsym_error_t),
      (∀ s ∈ l, s.1.name ≠ q) → run_enum (search_cb (some q)) l = []
  | [], _ => rfl
  | s :: rest, h => by
    have hs : s.1.name ≠ q := h s (List.mem_cons_self s rest)
    have hcb : search_cb (some q) s.1 s.2 = ([], true) := by
      simp [search_cb, hs]
    simp [run_enum, hcb]
    exact run_enum_no_match q rest (fun x hx => h x (List.mem_cons_of_mem s hx))

/-- C7: in an exact-name enumeration, search_cb prints a symbol exactly
when no filter was supplied or the symbol name equals the filter, always
ignoring the per-symbol status and always returning true (never cutting
the enumeration short); an enumeration matching zero symbols prints
nothing at all when verbose mode is off. -/
theorem enumeration_filter_spec (m : Option String) (info : drsym_info_t)
    (status : drsym_error_t) :
    (search_cb m info status).2 = true ∧
    ((m = none ∨ m = some info.name) →
      (search_cb m info status).1 =
        [Event.write (info.name ++ " +0x" ++ hexStr (info.start_offs % 2 ^ 32) ++
          "-0x" ++ hexStr (info.end_offs % 2 ^ 32) ++ "\n")]) ∧
    (m ≠ none → m ≠ some info.name → (search_cb m info status).1 = []) ∧
    (∀ (lib : SymLib) (g : Globals) (dllpath q : String), g.verbose = false →
      (∀ s ∈ lib.module_syms dllpath, s.1.name ≠ q) →
      writesOf (enumerate_symbols lib g dllpath (some q) false false) = []) := by
  refine ⟨rfl, ?_, ?_, ?_⟩
  · intro h
    rcases h with h | h <;> subst h <;> simp [search_cb]
  · intro h1 h2
    have h3 : ¬(some info.name = m) := fun hx => h2 hx.symm
    simp [search_cb, h1, h3]
  · intro lib g dllpath q hv hnone
    simp [enumerate_symbols, hv, run_enum_no_match q _ hnone,
      writesOf_append, writesOf_ite, writesOf_cons_call_enum, writesOf_nil]

/-- Witness for C7: the concrete module enumerates one symbol named foo;
filtering on a name that matches nothing prints nothing. -/
theorem enumeration_filter_spec_witness :
    (search_cb (some "foo") testSym drsym_error_t.DRSYM_SUCCESS).2 = true ∧
    writesOf (enumerate_symbols testLib { show_func := false, verbose := false }
      "a.dll" (some "nope") false false) = [] := by
  constructor
  · exact (enumeration_filter_spec (some "foo") testSym
      drsym_error_t.DRSYM_SUCCESS).1
  · exact (enumeration_filter_spec (some "nope") testSym
      drsym_error_t.DRSYM_SUCCESS).2.2.2 testLib
      { show_func := false, verbose := false } "a.dll" "nope" rfl (by decide)

/-- C5: every run whose parsed flags leave the module path missing when
required, combine batch mode with a module path, or select no mode at all
prints the usage text and stops with status 1, with no library start-up
call in its trace; and an -e flag whose value names a file that does not
exist or is not readable makes the parser stop with the invalid-path
error, which main turns into that error line and status 1. -/
theorem usage_validation_errors (lib : SymLib) (fok : String → Bool)
    (argv0 : String) (stdin_lines : List String) :
    (∀ argv st qs, parse_args fok initState argv = ParseResult.ok st qs →
      st.addr2sym_multi = false → st.dll = none →
      main_run lib fok argv0 argv stdin_lines = (1, print_usage_events argv0)) ∧
    (∀ argv st qs, parse_args fok initState argv = ParseResult.ok st qs →
      st.addr2sym_multi = true → st.dll ≠ none →
      main_run lib fok argv0 argv stdin_lines = (1, print_usage_events argv0)) ∧
    (∀ argv st qs, parse_args fok initState argv = ParseResult.ok st qs →
      st.sym2addr = false → st.addr2sym = false → st.addr2sym_multi = false →
      st.enumerate_all = false → st.enum_lines = false →
      main_run lib fok argv0 argv stdin_lines = (1, print_usage_events argv0)) ∧
    (∀ st p rest, fok p = false →
      parse_args fok st ("-e" :: p :: rest) = ParseResult.badPath p) ∧
    (∀ argv p, parse_args fok initState argv = ParseResult.badPath p →
      main_run lib fok argv0 argv stdin_lines =
        (1, [Event.write ("ERROR: invalid path " ++ p ++ "\n")])) ∧
    Event.drsym_start ∉ print_usage_events argv0 ∧
    (∀ p, Event.drsym_start ∉ [Event.write ("ERROR: invalid path " ++ p ++ "\n")]) := by
  refine ⟨?_, ?_, ?_, ?_, ?_, ?_, ?_⟩
  · intro argv st qs hp hm hd
    simp [main_run, hp, after_parse, args_invalid, hm, hd]
  · intro argv st qs hp hm hd
    simp [main_run, hp, after_parse, args_invalid, hm, hd]
  · intro argv st qs hp h1 h2 h3 h4 h5
    simp [main_run, hp, after_parse, args_invalid, h1, h2, h3, h4, h5]
  · intro st p rest hf
    have h0 : stricmp "-e" "-e" = true := by decide
    simp [parse_args, h0, hf]
  · intro argv p hp
    simp [main_run, hp, after_parse]
  · simp [print_usage_events]
  · intro p
    simp

/-- Witness for C5: a run with only -v (module path missing), and a run
with -e naming a file the oracle rejects. -/
theorem usage_validation_errors_witness :
    main_run testLib (fun _ => false) "symquery" ["-v"] [] =
      (1, print_usage_events "symquery") ∧
    main_run testLib (fun _ => false) "symquery" ["-e", "nope"] [] =
      (1, [Event.write ("ERROR: invalid path " ++ "nope" ++ "\n")]) := by
  constructor
  · exact (usage_validation_errors testLib (fun _ => false) "symquery" []).1
      ["-v"] { initState with verbose := true } [] (by decide) rfl rfl
  · exact (usage_validation_errors testLib (fun _ => false) "symquery" []).2.2.2.2.1
      ["-e", "nope"] "nope" (by decide)

/-- C8: once -a or -s is reached with at least one following argument, the
parsing loop stops: every remaining argument, flag-looking or not, is
returned as a positional query, and no other option field of the state
changes. -/
theorem post_mode_args_positional (fok : String → Bool) (st : ParseState)
    (a r : String) (rest : List String)
    (h : stricmp a "-a" = true ∨ stricmp a "-s" = true) :
    parse_args fok st (a :: r :: rest) =
      ParseResult.ok
        (if stricmp a "-a" then { st with addr2sym := true }
         else { st with sym2addr := true }) (r :: rest) := by
  rcases h with h | h
  · have he := stricmp_trans_ne h (by decide : stricmp "-a" "-e" = false)
    have hf := stricmp_trans_ne h (by decide : stricmp "-a" "-f" = false)
    have hv := stricmp_trans_ne h (by decide : stricmp "-a" "-v" = false)
    simp [parse_args, he, hf, hv, h]
  · have he := stricmp_trans_ne h (by decide : stricmp "-s" "-e" = false)
    have hf := stricmp_trans_ne h (by decide : stricmp "-s" "-f" = false)
    have hv := stricmp_trans_ne h (by decide : stricmp "-s" "-v" = false)
    have ha := stricmp_trans_ne h (by decide : stricmp "-s" "-a" = false)
    simp [parse_args, he, hf, hv, ha, h]

/-- Witness for C8: after -s, the option-looking strings -v and --list are
returned as positional queries and the verbose flag stays unset. -/
theorem post_mode_args_positional_witness :
    parse_args (fun _ => true) initState ["-s", "-v", "--list"] =
      ParseResult.ok { initState with sym2addr := true } ["-v", "--list"] := by
  have h := post_mode_args_positional (fun _ => true) initState "-s" "-v" ["--list"]
    (Or.inr (by decide))
  exact h.trans (by decide)

/-- C9: every run that passes validation and library start-up finishes
with exit status 0, whatever the dispatched lookups or enumerations do
and whatever the teardown returns; a failing teardown only appends a
warning line to the output. -/
theorem exit_zero_after_validation (lib : SymLib) (fok : String → Bool)
    (argv0 : String) (stdin_lines : List String) (argv : List String)
    (st : ParseState) (qs : List String)
    (hp : parse_args fok initState argv = ParseResult.ok st qs)
    (hv : args_invalid st = false)
    (hi : lib.start_res = drsym_error_t.DRSYM_SUCCESS) :
    main_run lib fok argv0 argv stdin_lines =
      (0, [Event.standalone_start, Event.drsym_start] ++
          run_mode lib { show_func := st.show_func, verbose := st.verbose }
            st qs stdin_lines ++
          [Event.drsym_teardown] ++
          (if lib.teardown_res ≠ drsym_error_t.DRSYM_SUCCESS then
            [Event.write "WARNING: error cleaning up symbol library\n"]
          else [])) := by
  simp [main_run, hp, after_parse, hv, hi]

/-- Witness for C9: a validated --list run over the concrete oracle exits
with status 0 and a clean teardown. -/
theorem exit_zero_after_validation_witness :
    main_run testLib (fun _ => true) "symquery" ["-e", "a.dll", "--list"] [] =
      (0, [Event.standalone_start, Event.drsym_start,
           Event.call_enum_symbols "a.dll" none,
           Event.write ("foo +0x10-0x20" ++ "\n"),
           Event.drsym_teardown]) := by
  have h := exit_zero_after_validation testLib (fun _ => true) "symquery" []
    ["-e", "a.dll", "--list"]
    { initState with dll := some "a.dll", enumerate_all := true } []
    (by decide) (by decide) rfl
  exact h.trans (by decide)

/-- C10: an -e, -a, or -s flag that is the last argument, with no value
after it, makes the parsing loop stop with the usage outcome, and any
usage outcome makes main print the usage text (whose -a and -s lines show
the query list as an optional bracketed list) and stop with status 1. -/
theorem trailing_flag_usage (fok : String → Bool) (st : ParseState) (a : String)
    (h : stricmp a "-e" = true ∨ stricmp a "-a" = true ∨ stricmp a "-s" = true) :
    parse_args fok st [a] = ParseResult.usage ∧
    (∀ (lib : SymLib) (argv0 : String) (argv : List String)
      (stdin_lines : List String),
      parse_args fok initState argv = ParseResult.usage →
      main_run lib fok argv0 argv stdin_lines = (1, print_usage_events argv0)) := by
  constructor
  · rcases h with h | h | h
    · simp [parse_args, h]
    · have he := stricmp_trans_ne h (by decide : stricmp "-a" "-e" = false)
      have hf := stricmp_trans_ne h (by decide : stricmp "-a" "-f" = false)
      have hv := stricmp_trans_ne h (by decide : stricmp "-a" "-v" = false)
      simp [parse_args, he, hf, hv, h]
    · have he := stricmp_trans_ne h (by decide : stricmp "-s" "-e" = false)
      have hf := stricmp_trans_ne h (by decide : stricmp "-s" "-f" = false)
      have hv := stricmp_trans_ne h (by decide : stricmp "-s" "-v" = false)
      simp [parse_args, he, hf, hv, h]
  · intro lib argv0 argv stdin_lines hp
    simp [main_run, hp, after_parse]

/-- Witness for C10: -a as the sole (hence last) argument yields the usage
outcome. -/
theorem trailing_flag_usage_witness :
    parse_args (fun _ => true) initState ["-a"] = ParseResult.usage :=
  (trailing_flag_usage (fun _ => true) initState "-a"
    (Or.inr (Or.inl (by decide)))).1

/-- C6 counterexample: combining -q with -a is not rejected: with
argv -q -a 5 and no module path, validation passes, the run exits with
status 0, batch mode consumes stdin and performs its lookup, and no usage
text is printed. -/
theorem batch_mode_flag_combination_counterexample :
    (main_run testLib (fun _ => false) "symquery" ["-q", "-a", "5"]
      ["a.dll;5\n"]).1 = 0 ∧
    Event.call_lookup_address "a.dll" 5 ∈
      (main_run testLib (fun _ => false) "symquery" ["-q", "-a", "5"]
        ["a.dll;5\n"]).2 ∧
    Event.write (USAGE_PRE "symquery") ∉
      (main_run testLib (fun _ => false) "symquery" ["-q", "-a", "5"]
        ["a.dll;5\n"]).2 := by
  refine ⟨by decide, by decide, by decide⟩

/-- C6 (amended): -q is rejected as a usage error (usage printed, status
1) exactly when it is combined with a module path (-e); combined with
-a, -s, --list, or --lines but no module path, the run passes validation
and executes batch mode, the single-module mode flags being ignored. -/
theorem batch_mode_flag_combination (lib : SymLib) (fok : String → Bool)
    (argv0 : String) (stdin_lines : List String) (argv : List String)
    (st : ParseState) (qs : List String)
    (hp : parse_args fok initState argv = ParseResult.ok st qs)
    (hm : st.addr2sym_multi = true) :
    (st.dll ≠ none →
      main_run lib fok argv0 argv stdin_lines = (1, print_usage_events argv0)) ∧
    (st.dll = none → lib.start_res = drsym_error_t.DRSYM_SUCCESS →
      main_run lib fok argv0 argv stdin_lines =
        (0, [Event.standalone_start, Event.drsym_start] ++
            batch_loop lib { show_func := st.show_func, verbose := st.verbose }
              stdin_lines ++
            [Event.drsym_teardown] ++
            (if lib.teardown_res ≠ drsym_error_t.DRSYM_SUCCESS then
              [Event.write "WARNING: error cleaning up symbol library\n"]
            else []))) := by
  constructor
  · intro hd
    simp [main_run, hp, after_parse, args_invalid, hm, hd]
  · intro hd hi
    simp [main_run, hp, after_parse, args_invalid, hm, hd, hi, run_mode]

/-- Witness for the amended C6: -q together with --list and no -e runs
batch mode (over empty stdin here) and exits with status 0. -/
theorem batch_mode_flag_combination_witness :
    main_run testLib (fun _ => false) "symquery" ["-q", "--list"] [] =
      (0, [Event.standalone_start, Event.drsym_start, Event.drsym_teardown]) := by
  have h := (batch_mode_flag_combination testLib (fun _ => false) "symquery" []
    ["-q", "--list"]
    { initState with addr2sym_multi := true, enumerate_all := true } []
    (by decide) rfl).2 rfl rfl
  exact h.trans (by decide)

end Symquery
